import Mathlib

/-!
Verification development for the SMPP transceiver transport
(vumi/transports/smpp/smpp_transport.py).

The definitions below are a shallow embedding of the Python source.
Python keyword-argument dictionaries become a record of optional fields,
a failed dictionary lookup becomes an explicit `PyErr.keyError`, and the
Twisted deferred returned by `publish_message(**message).addErrback(log.err)`
becomes an explicit record of what was handed to the transport shell,
how many publish failures were logged, and which exception (if any)
escaped the call.
-/

namespace Smpp

/-- A Python exception relevant to `handle_raw_inbound_message`: the only
exception the function itself can raise is a `KeyError` from a dictionary
lookup (`kwargs[k]` or the session-indicator mapping). -/
inductive PyErr where
  | keyError (key : String)
deriving DecidableEq, Repr

/-- The keyword arguments of `handle_raw_inbound_message`.  The Python
source receives `**kwargs` and reads exactly these six keys; a field is
`none` when the corresponding key is absent from the call. -/
structure Kwargs where
  message_type : Option String
  destination_addr : Option String
  source_addr : Option String
  short_message : Option String
  session_event : Option String
  session_info : Option String
deriving DecidableEq, Repr

/-- Python `kwargs[key]`: raises `KeyError key` when the key is absent. -/
def require (key : String) : Option String → Except PyErr String
  | some v => .ok v
  | none => .error (.keyError key)

/-- Modelled from the spec: `TransportUserMessage` lives in `vumi/message.py`,
which is not under src/; the spec fixes `session_event` to exactly one of
the values new, resume and close, which are the values of the constants
`SESSION_NEW`, `SESSION_RESUME` and `SESSION_CLOSE`. -/
def SESSION_NEW : String := "new"

/-- Modelled from the spec: see `SESSION_NEW`. -/
def SESSION_RESUME : String := "resume"

/-- Modelled from the spec: see `SESSION_NEW`. -/
def SESSION_CLOSE : String := "close"

/-- The session-indicator dictionary lookup from `handle_raw_inbound_message`:
`{new: SESSION_NEW, continue: SESSION_RESUME, close: SESSION_CLOSE}[ind]`.
An indicator outside the three keys raises `KeyError ind`. -/
def sessionEventMap (ind : String) : Except PyErr String :=
  if ind = "new" then .ok SESSION_NEW
  else if ind = "continue" then .ok SESSION_RESUME
  else if ind = "close" then .ok SESSION_CLOSE
  else .error (.keyError ind)

/-- The canonical message dictionary built by `handle_raw_inbound_message`.
`session_event` is `none` exactly when the Python dictionary has no
session_event key; `transport_metadata` is an association list,
mirroring the metadata dictionary. -/
structure CanonicalMessage where
  message_id : String
  to_addr : String
  from_addr : String
  content : String
  transport_type : String
  transport_metadata : List (String × Option String)
  session_event : Option String
deriving DecidableEq, Repr

/-- The message-construction part of `handle_raw_inbound_message`: the
dictionary literal (whose `kwargs[...]` lookups can raise `KeyError`)
followed by the ussd branch that maps the session indicator and adds
session_info to the metadata.  `u` is the value of `uuid4().hex`. -/
def buildInboundMessage (u : String) (k : Kwargs) :
    Except PyErr CanonicalMessage :=
  let message_type := k.message_type.getD "sms"
  Except.bind (require "destination_addr" k.destination_addr) fun to_addr =>
  Except.bind (require "source_addr" k.source_addr) fun from_addr =>
  Except.bind (require "short_message" k.short_message) fun content =>
  let base : CanonicalMessage :=
    { message_id := u
      to_addr := to_addr
      from_addr := from_addr
      content := content
      transport_type := message_type
      transport_metadata := []
      session_event := none }
  if message_type = "ussd" then
    Except.bind (require "session_event" k.session_event) fun ind =>
    Except.bind (sessionEventMap ind) fun se =>
    Except.ok { base with
                 session_event := some se
                 transport_metadata := [("session_info", k.session_info)] }
  else
    Except.ok base

/-- The observable outcome of one call to `handle_raw_inbound_message`:
which canonical messages were handed to the transport shell via
`publish_message`, how many publish failures `log.err` recorded through
the attached errback, and which exception escaped the call itself. -/
structure HandleResult where
  handedToShell : List CanonicalMessage
  loggedPublishFailures : Nat
  raised : Option PyErr
deriving DecidableEq, Repr

/-- `SmppTransport.handle_raw_inbound_message`.  `u` is the value of
`uuid4().hex`; `publishSucceeds` records whether the downstream
`publish_message` deferred succeeds.  On a construction failure the
`KeyError` escapes before `publish_message` is reached; otherwise the
message is handed to the shell and a publish failure is consumed by
`.addErrback(log.err)` instead of propagating. -/
def handle_raw_inbound_message (u : String) (publishSucceeds : Bool)
    (k : Kwargs) : HandleResult :=
  match buildInboundMessage u k with
  | .error e =>
      { handedToShell := []
        loggedPublishFailures := 0
        raised := some e }
  | .ok m =>
      { handedToShell := [m]
        loggedPublishFailures := if publishSucceeds then 0 else 1
        raised := none }

/-! ## Connection supervisor and teardown (`setup_transport`, `start_service`,
`teardown_transport`) -/

/-- Modelled from the spec: `ReconnectingClientService`
(vumi/reconnecting_client.py, not under src/).  The spec contract for the
supervisor: stop is idempotent and, once called, guarantees no further
connection attempts and cancels any in-progress attempt. -/
structure ReconnectingClientService where
  stopped : Bool
  attemptInProgress : Bool
deriving DecidableEq, Repr

/-- Modelled from the spec: `stopService` marks the service stopped and
cancels any in-progress connection attempt. -/
def stopService (_s : ReconnectingClientService) : ReconnectingClientService :=
  { stopped := true, attemptInProgress := false }

/-- Modelled from the spec: a stopped supervisor never starts another
connection attempt; a running one may. -/
def attemptConnection (s : ReconnectingClientService) :
    Option ReconnectingClientService :=
  if s.stopped then none else some { s with attemptInProgress := true }

/-- The sequence-store connection held by the transport; `redisClose`
models `self.redis._close()`. -/
structure RedisConn where
  closed : Bool
deriving DecidableEq, Repr

/-- `self.redis._close()`. -/
def redisClose (_r : RedisConn) : RedisConn := { closed := true }

/-- The transport state touched by `teardown_transport`: the reconnecting
client service created by `start_service` (`none` models a falsy
`self.service`) and the sequence-store connection. -/
structure TransportState where
  service : Option ReconnectingClientService
  redis : RedisConn
deriving DecidableEq, Repr

/-- The side effects of one `teardown_transport` call, in order. -/
inductive TeardownEvent where
  | stopSvc
  | closeRedis
deriving DecidableEq, Repr

/-- `SmppTransport.teardown_transport`: `if self.service: yield
self.service.stopService()` then `yield self.redis._close()`.  Returns
the new state together with the ordered list of side effects. -/
def teardown_transport (t : TransportState) :
    TransportState × List TeardownEvent :=
  match t.service with
  | some s =>
      ({ service := some (stopService s), redis := redisClose t.redis },
       [.stopSvc, .closeRedis])
  | none =>
      ({ service := none, redis := redisClose t.redis }, [.closeRedis])

/-! ## Sequence-store key partitioning (`setup_transport`) -/

/-- The default key namespace computed by `setup_transport`:
`%s@%s % (smpp_config.system_id, config.transport_name)`.
(The Python name is `default_prefix`.) -/
def defaultPfx (system_id transport_name : String) : String :=
  system_id ++ "@" ++ transport_name

/-- The key namespace chosen by `setup_transport`:
`config.split_bind_prefix or default_prefix`.  The configured value is
`none` when unset; Python `or` also falls back on the falsy empty
string.  (The Python name is `redis_prefix`.) -/
def redisPfx (splitBindPfx : Option String)
    (system_id transport_name : String) : String :=
  match splitBindPfx with
  | some s => if s = "" then defaultPfx system_id transport_name else s
  | none => defaultPfx system_id transport_name

/-- Modelled from the spec: `sub_manager` (vumi/persist, not under src/)
namespaces every key of the sub-manager under the given string, and
`RedisSequence` (vumi/transports/smpp/clientserver/sequence.py, not under
src/) allocates all of its values from one durable counter stored at a
single fixed key inside that namespace. -/
def sequenceCounterKey (pfx : String) : String :=
  pfx ++ ":" ++ "smpp_last_sequence_number"

/-! ## Transceiver protocol bind-on-connect
(`SmppTransceiverProtocol.onConnectionMade`) -/

/-- The session states of the spec state machine. -/
inductive SessionState where
  | UNBOUND
  | BINDING
  | BOUND
  | UNBINDING
  | DEAD
deriving DecidableEq, Repr

/-- The observable state of one protocol instance: its session state and
the PDUs it has written, by command name. -/
structure EsmeProtocol where
  state : SessionState
  sentPdus : List String
deriving DecidableEq, Repr

/-- Modelled from the spec: `bind` on the base protocol
(vumi/transports/smpp/clientserver/new_client.py, not under src/) sends a
bind_transceiver PDU built from configured credentials and moves the
session from UNBOUND to BINDING. -/
def bind (p : EsmeProtocol) : EsmeProtocol :=
  { state := .BINDING, sentPdus := p.sentPdus ++ ["bind_transceiver"] }

/-- Modelled from the spec: the base factory protocol
(`EsmeTransceiverFactory.protocol`, not under src/) has no bind-on-connect
hook — its connection-made handler leaves the session untouched; the
transceiver subclass adds the hook. -/
def baseOnConnectionMade (p : EsmeProtocol) : EsmeProtocol := p

/-- `SmppTransceiverProtocol.onConnectionMade`: `return self.bind()`. -/
def SmppTransceiverProtocol.onConnectionMade (p : EsmeProtocol) :
    EsmeProtocol := bind p

/-- Modelled from the spec: the standard-library value `uuid4().hex` is a
freshly drawn random identifier rendered as 32 lowercase hexadecimal
characters; `handle_raw_inbound_message` receives that draw as its
parameter `u`. -/
def isUuid4Hex (s : String) : Bool :=
  s.length == 32 &&
    s.data.all (fun ch => ch.isDigit || ("abcdef".data.contains ch))

/-! ## Helper lemmas -/

/-- Whenever the message construction in `handle_raw_inbound_message`
succeeds, the produced message takes its fields from the keyword
arguments exactly as the dictionary literal writes them. -/
lemma build_ok_fields (u : String) (k : Kwargs) (m : CanonicalMessage)
    (h : buildInboundMessage u k = .ok m) :
    m.message_id = u ∧
    k.destination_addr = some m.to_addr ∧
    k.source_addr = some m.from_addr ∧
    k.short_message = some m.content ∧
    m.transport_type = k.message_type.getD "sms" ∧
    (m.session_event.isSome ↔ m.transport_type = "ussd") ∧
    (m.transport_type ≠ "ussd" → m.transport_metadata = []) := by
  obtain ⟨mt, da, sa, sm, se, si⟩ := k
  cases da with
  | none => simp [buildInboundMessage, require, Except.bind] at h
  | some d =>
    cases sa with
    | none => simp [buildInboundMessage, require, Except.bind] at h
    | some s =>
      cases sm with
      | none => simp [buildInboundMessage, require, Except.bind] at h
      | some c =>
        by_cases hmt : Option.getD mt "sms" = "ussd"
        · cases se with
          | none =>
            simp [buildInboundMessage, require, Except.bind, hmt] at h
          | some ind =>
            simp only [buildInboundMessage, require, Except.bind, hmt,
              if_pos] at h
            by_cases h1 : ind = "new"
            · simp [h1, sessionEventMap, Except.bind] at h
              subst h
              simp [hmt, SESSION_NEW]
            · by_cases h2 : ind = "continue"
              · simp [h1, h2, sessionEventMap, Except.bind] at h
                subst h
                simp [hmt, SESSION_RESUME]
              · by_cases h3 : ind = "close"
                · simp [h1, h2, h3, sessionEventMap, Except.bind] at h
                  subst h
                  simp [hmt, SESSION_CLOSE]
                · simp [h1, h2, h3, sessionEventMap, Except.bind] at h
        · simp [buildInboundMessage, require, Except.bind, hmt] at h
          simp [← h, hmt]

/-- A message handed to the shell comes from a successful construction. -/
lemma handed_of_build (u : String) (pub : Bool) (k : Kwargs)
    (m : CanonicalMessage)
    (h : (handle_raw_inbound_message u pub k).handedToShell = [m]) :
    buildInboundMessage u k = .ok m := by
  unfold handle_raw_inbound_message at h
  cases hb : buildInboundMessage u k with
  | error e => rw [hb] at h; simp at h
  | ok m0 => rw [hb] at h; simp at h; rw [h]

/-! ## Claim theorems -/

/-- C1: for every inbound USSD message handled by
`handle_raw_inbound_message`, the session indicator is mapped exactly —
the indicator value new yields session_event `SESSION_NEW`, continue
yields `SESSION_RESUME`, close yields `SESSION_CLOSE` — and the result
is stored on the produced canonical message. -/
theorem c1_ussd_session_indicator_mapping (u d s c : String) (pub : Bool)
    (k : Kwargs)
    (hmt : k.message_type = some "ussd")
    (hd : k.destination_addr = some d)
    (hs : k.source_addr = some s)
    (hc : k.short_message = some c) :
    (k.session_event = some "new" →
      ∃ m, (handle_raw_inbound_message u pub k).handedToShell = [m] ∧
        m.session_event = some SESSION_NEW) ∧
    (k.session_event = some "continue" →
      ∃ m, (handle_raw_inbound_message u pub k).handedToShell = [m] ∧
        m.session_event = some SESSION_RESUME) ∧
    (k.session_event = some "close" →
      ∃ m, (handle_raw_inbound_message u pub k).handedToShell = [m] ∧
        m.session_event = some SESSION_CLOSE) := by
  obtain ⟨mt, da, sa, sm, se, si⟩ := k
  simp only at hmt hd hs hc
  subst hmt; subst hd; subst hs; subst hc
  refine ⟨fun h => ?_, fun h => ?_, fun h => ?_⟩ <;>
    (simp only at h; subst h) <;>
    exact ⟨_, rfl, rfl⟩

/-- C1 witness: the three indicator values on a concrete USSD call. -/
theorem c1_witness :
    ∃ m, (handle_raw_inbound_message "u0" true
      { message_type := some "ussd", destination_addr := some "100",
        source_addr := some "200", short_message := some "hi",
        session_event := some "continue",
        session_info := some "ab" }).handedToShell = [m] ∧
      m.session_event = some SESSION_RESUME :=
  (c1_ussd_session_indicator_mapping "u0" "100" "200" "hi" true
    { message_type := some "ussd", destination_addr := some "100",
      source_addr := some "200", short_message := some "hi",
      session_event := some "continue", session_info := some "ab" }
    rfl rfl rfl rfl).2.1 rfl

/-- C2 counterexample: on a USSD call whose session indicator is the
unrecognized value weird, `handle_raw_inbound_message` does drop the
message, but a KeyError escapes the call — so the claim that no
exception escapes is false. -/
theorem c2_counterexample :
    ((handle_raw_inbound_message "u0" true
      { message_type := some "ussd", destination_addr := some "100",
        source_addr := some "200", short_message := some "hi",
        session_event := some "weird",
        session_info := none }).raised ≠ none) ∧
    (handle_raw_inbound_message "u0" true
      { message_type := some "ussd", destination_addr := some "100",
        source_addr := some "200", short_message := some "hi",
        session_event := some "weird",
        session_info := none }).handedToShell = [] := by
  exact ⟨by decide, rfl⟩

/-- C2 amended: for every inbound USSD message whose session indicator is
none of new, continue, close, `handle_raw_inbound_message` publishes no
canonical message and raises the KeyError from the indicator lookup to
its caller (which, per the spec, logs it while the PDU is still
acknowledged), rather than swallowing it itself. -/
theorem c2_unrecognized_indicator_drops_and_raises
    (u d s c ind : String) (pub : Bool) (k : Kwargs)
    (hmt : k.message_type = some "ussd")
    (hd : k.destination_addr = some d)
    (hs : k.source_addr = some s)
    (hc : k.short_message = some c)
    (hse : k.session_event = some ind)
    (h1 : ind ≠ "new") (h2 : ind ≠ "continue") (h3 : ind ≠ "close") :
    (handle_raw_inbound_message u pub k).handedToShell = [] ∧
    (handle_raw_inbound_message u pub k).raised =
      some (PyErr.keyError ind) := by
  obtain ⟨mt, da, sa, sm, se, si⟩ := k
  simp only at hmt hd hs hc hse
  subst hmt; subst hd; subst hs; subst hc; subst hse
  simp [handle_raw_inbound_message, buildInboundMessage, require,
    Except.bind, sessionEventMap, h1, h2, h3]

/-- C2 amended witness: concrete unrecognized indicator. -/
theorem c2_unrecognized_indicator_witness :
    (handle_raw_inbound_message "u0" false
      { message_type := some "ussd", destination_addr := some "100",
        source_addr := some "200", short_message := some "hi",
        session_event := some "bogus",
        session_info := none }).handedToShell = [] ∧
    (handle_raw_inbound_message "u0" false
      { message_type := some "ussd", destination_addr := some "100",
        source_addr := some "200", short_message := some "hi",
        session_event := some "bogus",
        session_info := none }).raised =
      some (PyErr.keyError "bogus") :=
  c2_unrecognized_indicator_drops_and_raises "u0" "100" "200" "hi" "bogus"
    false
    { message_type := some "ussd", destination_addr := some "100",
      source_addr := some "200", short_message := some "hi",
      session_event := some "bogus", session_info := none }
    rfl rfl rfl rfl rfl (by decide) (by decide) (by decide)

/-- C3: for every inbound short message, `handle_raw_inbound_message`
builds a canonical message whose to_addr is the destination_addr of the
PDU, whose from_addr is its source_addr, whose content is its
short_message, and whose transport_metadata is the empty mapping; that
message is the sole value handed to the transport shell. -/
theorem c3_inbound_short_message_fields (u d s c : String) (pub : Bool)
    (k : Kwargs)
    (hd : k.destination_addr = some d)
    (hs : k.source_addr = some s)
    (hc : k.short_message = some c)
    (hmt : k.message_type.getD "sms" ≠ "ussd") :
    ∃ m, (handle_raw_inbound_message u pub k).handedToShell = [m] ∧
      m.to_addr = d ∧ m.from_addr = s ∧ m.content = c ∧
      m.transport_metadata = [] := by
  obtain ⟨mt, da, sa, sm, se, si⟩ := k
  simp only at hd hs hc hmt
  subst hd; subst hs; subst hc
  simp [handle_raw_inbound_message, buildInboundMessage, require,
    Except.bind, hmt]

/-- C3 witness: a concrete sms deliver_sm. -/
theorem c3_witness :
    ∃ m, (handle_raw_inbound_message "u1" true
      { message_type := none, destination_addr := some "111",
        source_addr := some "222", short_message := some "hello",
        session_event := none, session_info := none }).handedToShell
        = [m] ∧
      m.to_addr = "111" ∧ m.from_addr = "222" ∧ m.content = "hello" ∧
      m.transport_metadata = [] :=
  c3_inbound_short_message_fields "u1" "111" "222" "hello" true
    { message_type := none, destination_addr := some "111",
      source_addr := some "222", short_message := some "hello",
      session_event := none, session_info := none }
    rfl rfl rfl (by decide)

/-- C4: teardown stops the reconnecting client service before closing
the sequence-store connection, is idempotent on the transport state, a
second call does not fail (it is a total function on the resulting
state), and once stopped the service cancels any in-progress attempt and
admits no further connection attempts. -/
theorem c4_teardown_idempotent_and_final (t : TransportState)
    (s : ReconnectingClientService) (h : t.service = some s) :
    (teardown_transport t).2 =
      [TeardownEvent.stopSvc, TeardownEvent.closeRedis] ∧
    (teardown_transport (teardown_transport t).1).1 =
      (teardown_transport t).1 ∧
    (teardown_transport t).1.service = some (stopService s) ∧
    (teardown_transport t).1.redis.closed = true ∧
    (stopService s).attemptInProgress = false ∧
    attemptConnection (stopService s) = none := by
  obtain ⟨svc, r⟩ := t
  simp only at h
  subst h
  simp [teardown_transport, stopService, redisClose, attemptConnection]

/-- C4 witness: a concrete transport with a live service and an
in-progress connection attempt. -/
theorem c4_witness :
    (teardown_transport
      { service := some { stopped := false, attemptInProgress := true },
        redis := { closed := false } }).2 =
      [TeardownEvent.stopSvc, TeardownEvent.closeRedis] ∧
    (teardown_transport (teardown_transport
      { service := some { stopped := false, attemptInProgress := true },
        redis := { closed := false } }).1).1 =
      (teardown_transport
      { service := some { stopped := false, attemptInProgress := true },
        redis := { closed := false } }).1 ∧
    (teardown_transport
      { service := some { stopped := false, attemptInProgress := true },
        redis := { closed := false } }).1.service =
      some (stopService { stopped := false, attemptInProgress := true }) ∧
    (teardown_transport
      { service := some { stopped := false, attemptInProgress := true },
        redis := { closed := false } }).1.redis.closed = true ∧
    (stopService
      { stopped := false, attemptInProgress := true }).attemptInProgress
      = false ∧
    attemptConnection
      (stopService { stopped := false, attemptInProgress := true })
      = none :=
  c4_teardown_idempotent_and_final
    { service := some { stopped := false, attemptInProgress := true },
      redis := { closed := false } }
    { stopped := false, attemptInProgress := true } rfl

/-- C5: the sequence store is keyed by the configured split-bind value
when one is set, and otherwise by system_id at transport_name; distinct
key namespaces give distinct sequence-counter keys, so the counters are
disjoint and cannot collide. -/
theorem c5_sequence_partitioning :
    (∀ p sid tn, p ≠ "" → redisPfx (some p) sid tn = p) ∧
    (∀ sid tn, redisPfx none sid tn = sid ++ "@" ++ tn) ∧
    (∀ p1 p2, p1 ≠ p2 →
      sequenceCounterKey p1 ≠ sequenceCounterKey p2) := by
  refine ⟨fun p sid tn hp => ?_, fun sid tn => rfl, fun p1 p2 hne he => ?_⟩
  · simp [redisPfx, hp]
  · apply hne
    have hd := congrArg String.data he
    simp only [sequenceCounterKey, String.data_append] at hd
    exact String.ext (List.append_cancel_right
      (List.append_cancel_right hd))

/-- C5 witness: concrete prefixes. -/
theorem c5_witness :
    redisPfx (some "bindA") "sysid" "tname" = "bindA" ∧
    redisPfx none "sysid" "tname" = "sysid" ++ "@" ++ "tname" ∧
    sequenceCounterKey "bindA" ≠ sequenceCounterKey "bindB" :=
  ⟨c5_sequence_partitioning.1 "bindA" "sysid" "tname" (by decide),
   c5_sequence_partitioning.2.1 "sysid" "tname",
   c5_sequence_partitioning.2.2 "bindA" "bindB" (by decide)⟩

/-- C6: `SmppTransceiverProtocol.onConnectionMade` is exactly `bind`,
so a new connection immediately sends bind_transceiver and moves the
session from UNBOUND to BINDING, while the base factory protocol leaves
the session untouched on connect — the bind-on-connect hook is the whole
difference. -/
theorem c6_bind_on_connect :
    ∀ p : EsmeProtocol,
      SmppTransceiverProtocol.onConnectionMade p = bind p ∧
      (SmppTransceiverProtocol.onConnectionMade p).state =
        SessionState.BINDING ∧
      (SmppTransceiverProtocol.onConnectionMade p).sentPdus =
        p.sentPdus ++ ["bind_transceiver"] ∧
      baseOnConnectionMade p = p :=
  fun _ => ⟨rfl, rfl, rfl, rfl⟩

/-- C7: when the canonical message has been built, a failure of the
downstream publish is consumed by the attached errback — exactly one
failure is logged, no error reaches the caller, and the message was
still the one handed to the shell. -/
theorem c7_publish_failure_logged_not_propagated (u : String) (k : Kwargs)
    (m : CanonicalMessage) (h : buildInboundMessage u k = .ok m) :
    (handle_raw_inbound_message u false k).raised = none ∧
    (handle_raw_inbound_message u false k).loggedPublishFailures = 1 ∧
    (handle_raw_inbound_message u false k).handedToShell = [m] := by
  simp [handle_raw_inbound_message, h]

/-- C7 witness: a concrete inbound sms whose publish fails. -/
theorem c7_witness :
    (handle_raw_inbound_message "u2" false
      { message_type := some "sms", destination_addr := some "1",
        source_addr := some "2", short_message := some "x",
        session_event := none, session_info := none }).raised = none ∧
    (handle_raw_inbound_message "u2" false
      { message_type := some "sms", destination_addr := some "1",
        source_addr := some "2", short_message := some "x",
        session_event := none,
        session_info := none }).loggedPublishFailures = 1 ∧
    (handle_raw_inbound_message "u2" false
      { message_type := some "sms", destination_addr := some "1",
        source_addr := some "2", short_message := some "x",
        session_event := none, session_info := none }).handedToShell =
      [{ message_id := "u2", to_addr := "1", from_addr := "2",
         content := "x", transport_type := "sms",
         transport_metadata := [], session_event := none }] :=
  c7_publish_failure_logged_not_propagated "u2"
    { message_type := some "sms", destination_addr := some "1",
      source_addr := some "2", short_message := some "x",
      session_event := none, session_info := none }
    { message_id := "u2", to_addr := "1", from_addr := "2",
      content := "x", transport_type := "sms",
      transport_metadata := [], session_event := none }
    rfl

/-- C8 counterexample: `handle_raw_inbound_message` copies the supplied
message_type into transport_type without validating it, so a call with
message_type mms produces a canonical message whose transport_type is
neither sms nor ussd — the claimed membership in the set is false. -/
theorem c8_counterexample :
    (handle_raw_inbound_message "u3" true
      { message_type := some "mms", destination_addr := some "1",
        source_addr := some "2", short_message := some "x",
        session_event := none, session_info := none }).handedToShell =
      [{ message_id := "u3", to_addr := "1", from_addr := "2",
         content := "x", transport_type := "mms",
         transport_metadata := [], session_event := none }] ∧
    ("mms" : String) ≠ "sms" ∧ ("mms" : String) ≠ "ussd" :=
  ⟨rfl, by decide, by decide⟩

/-- C8 amended: every canonical message produced by
`handle_raw_inbound_message` has transport_type equal to the supplied
message_type, defaulting to sms when none is given — the code does not
restrict it to the set containing sms and ussd — and carries a
session_event exactly when transport_type is ussd. -/
theorem c8_transport_type_and_session_event (u : String) (pub : Bool)
    (k : Kwargs) (m : CanonicalMessage)
    (h : (handle_raw_inbound_message u pub k).handedToShell = [m]) :
    m.transport_type = k.message_type.getD "sms" ∧
    (m.session_event.isSome ↔ m.transport_type = "ussd") := by
  have hb := handed_of_build u pub k m h
  have hf := build_ok_fields u k m hb
  exact ⟨hf.2.2.2.2.1, hf.2.2.2.2.2.1⟩

/-- C8 amended witness: default sms case. -/
theorem c8_witness :
    (fun (m : CanonicalMessage) =>
      m.transport_type =
        (Option.getD (α := String) none "sms") ∧
      (m.session_event.isSome ↔ m.transport_type = "ussd"))
      { message_id := "u4", to_addr := "1", from_addr := "2",
        content := "x", transport_type := "sms",
        transport_metadata := [], session_event := none } :=
  c8_transport_type_and_session_event "u4" true
    { message_type := none, destination_addr := some "1",
      source_addr := some "2", short_message := some "x",
      session_event := none, session_info := none }
    { message_id := "u4", to_addr := "1", from_addr := "2",
      content := "x", transport_type := "sms",
      transport_metadata := [], session_event := none }
    rfl

/-- C9: the message_id of every produced canonical message is exactly
the uuid4().hex draw passed in — when the draw is a 32-character
hexadecimal string so is the message_id — and it does not depend on any
PDU field: equal draws give equal message_ids whatever the keyword
arguments, while distinct draws give distinct message_ids even on
identical keyword arguments, so message_id is not a deterministic
function of the PDU. -/
theorem c9_message_id_fresh_and_input_independent
    (u1 u2 : String) (pub1 pub2 : Bool) (k1 k2 : Kwargs)
    (m1 m2 : CanonicalMessage)
    (h1 : (handle_raw_inbound_message u1 pub1 k1).handedToShell = [m1])
    (h2 : (handle_raw_inbound_message u2 pub2 k2).handedToShell = [m2]) :
    m1.message_id = u1 ∧ m2.message_id = u2 ∧
    (isUuid4Hex u1 = true → isUuid4Hex m1.message_id = true) ∧
    (u1 = u2 → m1.message_id = m2.message_id) ∧
    (u1 ≠ u2 → m1.message_id ≠ m2.message_id) := by
  have e1 := (build_ok_fields u1 k1 m1 (handed_of_build u1 pub1 k1 m1 h1)).1
  have e2 := (build_ok_fields u2 k2 m2 (handed_of_build u2 pub2 k2 m2 h2)).1
  refine ⟨e1, e2, fun hu => by rw [e1]; exact hu,
    fun he => by rw [e1, e2, he], fun hne hm => hne ?_⟩
  rw [← e1, ← e2]; exact hm

/-- C9 witness: two draws over the same PDU fields. -/
theorem c9_witness :
    ("0123456789abcdef0123456789abcdef" : String).length = 32 ∧
    (({ message_id := "0123456789abcdef0123456789abcdef", to_addr := "1",
        from_addr := "2", content := "x", transport_type := "sms",
        transport_metadata := [],
        session_event := none } : CanonicalMessage).message_id =
      "0123456789abcdef0123456789abcdef" ∧
    ({ message_id := "ffffffffffffffffffffffffffffffff", to_addr := "1",
       from_addr := "2", content := "x", transport_type := "sms",
       transport_metadata := [],
       session_event := none } : CanonicalMessage).message_id =
      "ffffffffffffffffffffffffffffffff" ∧
    (isUuid4Hex "0123456789abcdef0123456789abcdef" = true →
      isUuid4Hex
        ({ message_id := "0123456789abcdef0123456789abcdef",
           to_addr := "1", from_addr := "2", content := "x",
           transport_type := "sms", transport_metadata := [],
           session_event := none } : CanonicalMessage).message_id
        = true) ∧
    (("0123456789abcdef0123456789abcdef" : String) =
        "ffffffffffffffffffffffffffffffff" →
      ({ message_id := "0123456789abcdef0123456789abcdef",
         to_addr := "1", from_addr := "2", content := "x",
         transport_type := "sms", transport_metadata := [],
         session_event := none } : CanonicalMessage).message_id =
      ({ message_id := "ffffffffffffffffffffffffffffffff",
         to_addr := "1", from_addr := "2", content := "x",
         transport_type := "sms", transport_metadata := [],
         session_event := none } : CanonicalMessage).message_id) ∧
    (("0123456789abcdef0123456789abcdef" : String) ≠
        "ffffffffffffffffffffffffffffffff" →
      ({ message_id := "0123456789abcdef0123456789abcdef",
         to_addr := "1", from_addr := "2", content := "x",
         transport_type := "sms", transport_metadata := [],
         session_event := none } : CanonicalMessage).message_id ≠
      ({ message_id := "ffffffffffffffffffffffffffffffff",
         to_addr := "1", from_addr := "2", content := "x",
         transport_type := "sms", transport_metadata := [],
         session_event := none } : CanonicalMessage).message_id)) :=
  ⟨rfl,
   c9_message_id_fresh_and_input_independent
    "0123456789abcdef0123456789abcdef"
    "ffffffffffffffffffffffffffffffff" true true
    { message_type := some "sms", destination_addr := some "1",
      source_addr := some "2", short_message := some "x",
      session_event := none, session_info := none }
    { message_type := some "sms", destination_addr := some "1",
      source_addr := some "2", short_message := some "x",
      session_event := none, session_info := none }
    { message_id := "0123456789abcdef0123456789abcdef", to_addr := "1",
      from_addr := "2", content := "x", transport_type := "sms",
      transport_metadata := [], session_event := none }
    { message_id := "ffffffffffffffffffffffffffffffff", to_addr := "1",
      from_addr := "2", content := "x", transport_type := "sms",
      transport_metadata := [], session_event := none }
    rfl rfl⟩

/-- C10: when destination_addr, source_addr or short_message is absent —
or message_type is ussd and session_event is absent — the call raises a
KeyError and hands nothing to the transport shell: no partial message is
published. -/
theorem c10_missing_key_raises_before_publish (u : String) (pub : Bool)
    (k : Kwargs)
    (h : k.destination_addr = none ∨ k.source_addr = none ∨
      k.short_message = none ∨
      (k.message_type.getD "sms" = "ussd" ∧ k.session_event = none)) :
    (handle_raw_inbound_message u pub k).handedToShell = [] ∧
    ∃ key, (handle_raw_inbound_message u pub k).raised =
      some (PyErr.keyError key) := by
  obtain ⟨mt, da, sa, sm, se, si⟩ := k
  simp only at h
  rcases h with h | h | h | ⟨hmt, hse⟩
  · subst h
    exact ⟨rfl, "destination_addr", rfl⟩
  · subst h
    cases da with
    | none => exact ⟨rfl, "destination_addr", rfl⟩
    | some d => exact ⟨rfl, "source_addr", rfl⟩
  · subst h
    cases da with
    | none => exact ⟨rfl, "destination_addr", rfl⟩
    | some d =>
      cases sa with
      | none => exact ⟨rfl, "source_addr", rfl⟩
      | some s => exact ⟨rfl, "short_message", rfl⟩
  · subst hse
    cases da with
    | none => exact ⟨rfl, "destination_addr", rfl⟩
    | some d =>
      cases sa with
      | none => exact ⟨rfl, "source_addr", rfl⟩
      | some s =>
        cases sm with
        | none => exact ⟨rfl, "short_message", rfl⟩
        | some c =>
          refine ⟨?_, "session_event", ?_⟩ <;>
            simp [handle_raw_inbound_message, buildInboundMessage,
              require, Except.bind, hmt]

/-- C10 witness: a ussd call missing its session_event key. -/
theorem c10_witness :
    (handle_raw_inbound_message "u5" true
      { message_type := some "ussd", destination_addr := some "1",
        source_addr := some "2", short_message := some "x",
        session_event := none, session_info := none }).handedToShell
      = [] ∧
    ∃ key, (handle_raw_inbound_message "u5" true
      { message_type := some "ussd", destination_addr := some "1",
        source_addr := some "2", short_message := some "x",
        session_event := none, session_info := none }).raised =
      some (PyErr.keyError key) :=
  c10_missing_key_raises_before_publish "u5" true
    { message_type := some "ussd", destination_addr := some "1",
      source_addr := some "2", short_message := some "x",
      session_event := none, session_info := none }
    (Or.inr (Or.inr (Or.inr ⟨rfl, rfl⟩)))

end Smpp
